import Mathlib

/-!
Shallow embedding of the scene-cast / session-state engine of the ai-dm
front-end script (`static/script.js`).  The mutable browser state
(`npcsData`, `partyNpcIds`, and the DOM regions the script writes:
`#description-result`, `#npc-select`, `#npc-card-container`,
`#generation-result`) is modelled as an explicit `AppState` record; the
transcript region `#generation-result` is modelled as a list of structured
entries rather than HTML strings.  Event handlers become pure state
transformers; the single suspending operation (the `/generate` fetch) is
split into the synchronous pre-call phase and the response-handling phase,
and the number of remote calls issued (resp. of `updateCurrentNpcs`
re-renders triggered) is returned explicitly so that claims about "no
remote call" / "no cast re-resolution" are expressible.
-/

/-- An NPC record as served by `/npcs` and stored in `npcsData`. -/
structure Npc where
  _id : String
  name : String
  description : String
  dialogue_options : List String
  skill_checks : List (String × List String)
deriving Repr, DecidableEq

/-- A room of a location (`room.name`, `room.description`, `room.npcs`). -/
structure Room where
  name : String
  description : String
  npcs : List String
deriving Repr, DecidableEq

/-- A location as served by `/locations`. -/
structure Location where
  name : String
  rooms : List Room
deriving Repr, DecidableEq

/-- One rendered block appended to `#generation-result` by
`appendToGeneratedScene`; the four HTML shapes the script produces. -/
inductive Entry where
  | playerAction (npcName promptText : String)
  | sceneNarration (text : String)
  | npcLine (speaker line : String)
  | errorLine (message : String)
deriving Repr, DecidableEq

/-- The payload of a successful `/generate` response
(`scene_changes`, `dialogue`, `new_dialogue_options`). -/
structure GenResponse where
  scene_changes : Option String
  dialogue : Option (List (String × String))
  new_dialogue_options : Option (String × List String)
deriving Repr, DecidableEq

/-- The mutable session state: the two module-level variables plus the DOM
regions the script writes. -/
structure AppState where
  npcsData : List Npc
  partyNpcIds : List String
  descriptionResult : Option (String × String × String)
  npcSelectOptions : List (String × String)
  npcCards : List Npc
  generationResult : List Entry
deriving Repr, DecidableEq

/-- One step of the duplicate-avoiding accumulation in `updateCurrentNpcs`:
`if (!allNpcsInScene.some(p => p._id === npc._id)) allNpcsInScene.push(npc)`. -/
def castStep (acc : List Npc) (npc : Npc) : List Npc :=
  if acc.any (fun p => p._id = npc._id) then acc else acc ++ [npc]

/-- The scene-cast computation inside `updateCurrentNpcs`:
`partyNpcs = npcsData.filter(n => partyNpcIds.has(n._id))`,
`roomNpcs = npcsData.filter(n => roomNpcNames.has(n.name))`, then
`allNpcsInScene = [...partyNpcs]` extended by the non-duplicate room NPCs. -/
def resolveCast (npcsData : List Npc) (roomNpcNames : List String)
    (partyNpcIds : List String) : List Npc :=
  let partyNpcs := npcsData.filter (fun n => n._id ∈ partyNpcIds)
  let roomNpcs := npcsData.filter (fun n => n.name ∈ roomNpcNames)
  roomNpcs.foldl castStep partyNpcs

/-- The `<option>` label built for an NPC in the scene:
`npc.name + (isPartyMember ? ' (Party)' : '')`. -/
def optionLabel (partyNpcIds : List String) (n : Npc) : String :=
  n.name ++ (if n._id ∈ partyNpcIds then " (Party)" else "")

/-- `updateCurrentNpcs`: looks up the selected location and room (early
return leaves everything untouched), rewrites the room description, then
clears and rebuilds `#npc-select` and `#npc-card-container` from the
resolved cast.  It reads but never writes `npcsData`, `partyNpcIds` and
`#generation-result`. -/
def updateCurrentNpcs (locationsData : List Location)
    (locationName roomName : String) (st : AppState) : AppState :=
  match locationsData.find? (fun loc => loc.name = locationName) with
  | none => st
  | some location =>
    match location.rooms.find? (fun r => r.name = roomName) with
    | none => st
    | some room =>
      let cast := resolveCast st.npcsData room.npcs st.partyNpcIds
      { st with
        descriptionResult := some (location.name, room.name, room.description),
        npcSelectOptions := cast.map (fun n => (n.name, optionLabel st.partyNpcIds n)),
        npcCards := cast }

/-- The synchronous prefix of `handleAction`, executed before the
`/generate` fetch is awaited: append the player-action block. -/
def preCallPhase (st : AppState) (npcName promptText : String) : AppState :=
  { st with generationResult :=
      st.generationResult ++ [Entry.playerAction npcName promptText] }

/-- `if (data.scene_changes) appendToGeneratedScene(...)`; the JS truthiness
test skips both an absent field and an empty string. -/
def applySceneChanges (t : List Entry) (o : Option String) : List Entry :=
  match o with
  | none => t
  | some s => if s = "" then t else t ++ [Entry.sceneNarration s]

/-- `if (data.dialogue && data.dialogue.length > 0) data.dialogue.forEach(...)`:
append one line per dialogue element, in order. -/
def applyDialogue (t : List Entry) (o : Option (List (String × String))) :
    List Entry :=
  match o with
  | none => t
  | some ds =>
    if ds.length > 0 then t ++ ds.map (fun d => Entry.npcLine d.1 d.2) else t

/-- `npcToUpdate.dialogue_options = options` applied to the first
`npcsData` element whose name matches (what `Array.prototype.find` picks). -/
def updateFirstNpc : List Npc → String → List String → List Npc
  | [], _, _ => []
  | n :: rest, nm, opts =>
    if n.name = nm then { n with dialogue_options := opts } :: rest
    else n :: updateFirstNpc rest nm opts

/-- The success branch of `handleAction` after the response is parsed:
scene changes, then dialogue lines, then the `new_dialogue_options` delta
(which, when its NPC name is found, replaces that NPC's options and calls
`updateCurrentNpcs`).  The returned `Nat` counts `updateCurrentNpcs`
re-renders triggered by this response. -/
def responsePhase (locationsData : List Location) (locationName roomName : String)
    (resp : GenResponse) (st : AppState) : AppState × Nat :=
  let t1 := applyDialogue (applySceneChanges st.generationResult resp.scene_changes) resp.dialogue
  let st1 := { st with generationResult := t1 }
  match resp.new_dialogue_options with
  | none => (st1, 0)
  | some (nm, opts) =>
    match st1.npcsData.find? (fun n => n.name = nm) with
    | none => (st1, 0)
    | some _ =>
      (updateCurrentNpcs locationsData locationName roomName
        { st1 with npcsData := updateFirstNpc st1.npcsData nm opts }, 1)

/-- A complete successful `handleAction` run: the pre-call append followed
by the response handling. -/
def dispatchSuccess (locationsData : List Location) (locationName roomName : String)
    (st : AppState) (npcName promptText : String) (resp : GenResponse) :
    AppState × Nat :=
  responsePhase locationsData locationName roomName resp
    (preCallPhase st npcName promptText)

/-- A `handleAction` run whose fetch fails (non-ok status, transport error
or malformed payload): the pre-call append has already happened; the catch
block appends one red error block built from the error message. -/
def dispatchFailure (st : AppState) (npcName promptText errMsg : String) :
    AppState :=
  let st1 := preCallPhase st npcName promptText
  { st1 with generationResult :=
      st1.generationResult ++ [Entry.errorLine ("Error generating scene: " ++ errMsg)] }

/-- The result of a `generate-btn` click: either the alert-and-return
rejection or a dispatched `handleAction`. -/
inductive ClickResult where
  | rejected
  | dispatched
deriving Repr, DecidableEq

/-- The `generate-btn` click listener: reject when the prompt is empty or
nothing is selected, otherwise run `handleAction('dialogue',
selectedNpcNames[0], promptText)` — whose synchronous part appends the
player action and issues one `/generate` fetch.  The returned `Nat` counts
remote calls issued. -/
def generateBtnClick (userPromptValue : String) (selectedNpcNames : List String)
    (st : AppState) : ClickResult × AppState × Nat :=
  if userPromptValue = "" ∨ selectedNpcNames = [] then
    (ClickResult.rejected, st, 0)
  else
    (ClickResult.dispatched,
     preCallPhase st (selectedNpcNames.headD "") userPromptValue, 1)

/-- The `npc-card-container` click listener hitting an `.action-btn`
(dialogue option or skill check): it always calls `handleAction` with the
button's type and prompt, so its synchronous effect is the player-action
append plus one `/generate` fetch.  The returned `Nat` counts remote calls
issued. -/
def actionButtonClick (_buttonType npcName promptText : String)
    (st : AppState) : AppState × Nat :=
  (preCallPhase st npcName promptText, 1)

/-- Sample NPC for concrete evaluations. -/
def gorim : Npc :=
  { _id := "id1", name := "Gorim", description := "a dwarf guard",
    dialogue_options := ["Halt!"], skill_checks := [] }

/-- Second sample NPC for concrete evaluations. -/
def brava : Npc :=
  { _id := "id2", name := "Brava", description := "a bard",
    dialogue_options := [], skill_checks := [] }

/-- Sample room containing Gorim. -/
def room1 : Room := { name := "Hall", description := "a great hall", npcs := ["Gorim"] }

/-- Sample location containing `room1`. -/
def loc1 : Location := { name := "Keep", rooms := [room1] }

/-- Sample initial session state with catalog `[gorim, brava]`. -/
def st0 : AppState :=
  { npcsData := [gorim, brava], partyNpcIds := [],
    descriptionResult := none, npcSelectOptions := [], npcCards := [],
    generationResult := [] }

/-! ## Helper lemmas -/

theorem updateCurrentNpcs_none_loc (locationsData : List Location)
    (locationName roomName : String) (st : AppState)
    (h1 : locationsData.find? (fun loc => loc.name = locationName) = none) :
    updateCurrentNpcs locationsData locationName roomName st = st := by
  unfold updateCurrentNpcs
  simp only [h1]

theorem updateCurrentNpcs_none_room (locationsData : List Location)
    (locationName roomName : String) (st : AppState) (location : Location)
    (h1 : locationsData.find? (fun loc => loc.name = locationName) = some location)
    (h2 : location.rooms.find? (fun r => r.name = roomName) = none) :
    updateCurrentNpcs locationsData locationName roomName st = st := by
  unfold updateCurrentNpcs
  simp only [h1, h2]

theorem updateCurrentNpcs_found (locationsData : List Location)
    (locationName roomName : String) (st : AppState)
    (location : Location) (room : Room)
    (h1 : locationsData.find? (fun loc => loc.name = locationName) = some location)
    (h2 : location.rooms.find? (fun r => r.name = roomName) = some room) :
    updateCurrentNpcs locationsData locationName roomName st
      = { st with
          descriptionResult := some (location.name, room.name, room.description),
          npcSelectOptions :=
            (resolveCast st.npcsData room.npcs st.partyNpcIds).map
              (fun n => (n.name, optionLabel st.partyNpcIds n)),
          npcCards := resolveCast st.npcsData room.npcs st.partyNpcIds } := by
  unfold updateCurrentNpcs
  simp only [h1, h2]

theorem updateCurrentNpcs_npcsData (locationsData : List Location)
    (locationName roomName : String) (st : AppState) :
    (updateCurrentNpcs locationsData locationName roomName st).npcsData = st.npcsData := by
  unfold updateCurrentNpcs
  split
  · rfl
  split
  · rfl
  · rfl

theorem updateCurrentNpcs_partyNpcIds (locationsData : List Location)
    (locationName roomName : String) (st : AppState) :
    (updateCurrentNpcs locationsData locationName roomName st).partyNpcIds = st.partyNpcIds := by
  unfold updateCurrentNpcs
  split
  · rfl
  split
  · rfl
  · rfl

theorem updateCurrentNpcs_generationResult (locationsData : List Location)
    (locationName roomName : String) (st : AppState) :
    (updateCurrentNpcs locationsData locationName roomName st).generationResult
      = st.generationResult := by
  unfold updateCurrentNpcs
  split
  · rfl
  split
  · rfl
  · rfl

/-- The narration block appended for a given `scene_changes` field. -/
def narrationPart : Option String → List Entry
  | none => []
  | some s => if s = "" then [] else [Entry.sceneNarration s]

/-- The dialogue blocks appended for a given `dialogue` field. -/
def dialoguePart (o : Option (List (String × String))) : List Entry :=
  (o.getD []).map (fun d => Entry.npcLine d.1 d.2)

theorem applySceneChanges_eq (t : List Entry) (o : Option String) :
    applySceneChanges t o = t ++ narrationPart o := by
  cases o with
  | none => simp [applySceneChanges, narrationPart]
  | some s =>
    by_cases h : s = "" <;> simp [applySceneChanges, narrationPart, h]

theorem applyDialogue_eq (t : List Entry) (o : Option (List (String × String))) :
    applyDialogue t o = t ++ dialoguePart o := by
  cases o with
  | none => simp [applyDialogue, dialoguePart]
  | some ds =>
    cases ds with
    | nil => simp [applyDialogue, dialoguePart]
    | cons d ds' => simp [applyDialogue, dialoguePart]

theorem responsePhase_generationResult (locationsData : List Location)
    (locationName roomName : String) (resp : GenResponse) (st : AppState) :
    (responsePhase locationsData locationName roomName resp st).1.generationResult
      = st.generationResult ++ narrationPart resp.scene_changes
          ++ dialoguePart resp.dialogue := by
  unfold responsePhase
  cases resp.new_dialogue_options with
  | none => simp [applySceneChanges_eq, applyDialogue_eq]
  | some p =>
    obtain ⟨nm, opts⟩ := p
    cases h : st.npcsData.find? (fun n => n.name = nm) with
    | none => simp [h, applySceneChanges_eq, applyDialogue_eq]
    | some n =>
      simp [h, updateCurrentNpcs_generationResult, applySceneChanges_eq, applyDialogue_eq]

theorem dispatchSuccess_generationResult (locationsData : List Location)
    (locationName roomName : String) (st : AppState)
    (npcName promptText : String) (resp : GenResponse) :
    (dispatchSuccess locationsData locationName roomName st npcName promptText resp).1.generationResult
      = st.generationResult ++ [Entry.playerAction npcName promptText]
          ++ narrationPart resp.scene_changes ++ dialoguePart resp.dialogue := by
  unfold dispatchSuccess
  rw [responsePhase_generationResult]
  simp [preCallPhase]

/-! ## Claim theorems -/

/-- Claim C1: a successful dispatch appends exactly one PlayerAction entry
(already present before the remote call resolves), then at most one
SceneNarration entry — present iff the response carries (non-empty)
scene-narration text — then exactly one NpcLine entry per returned dialogue
line, in response order, with no reordering or deduplication. -/
theorem claim1_dispatch_success_transcript (locationsData : List Location)
    (locationName roomName : String) (st : AppState)
    (npcName promptText : String) (resp : GenResponse) :
    (preCallPhase st npcName promptText).generationResult
      = st.generationResult ++ [Entry.playerAction npcName promptText]
  ∧ (dispatchSuccess locationsData locationName roomName st npcName promptText resp).1.generationResult
      = st.generationResult ++ [Entry.playerAction npcName promptText]
          ++ (match resp.scene_changes with
              | some s => if s = "" then [] else [Entry.sceneNarration s]
              | none => [])
          ++ (resp.dialogue.getD []).map (fun d => Entry.npcLine d.1 d.2) := by
  refine ⟨rfl, ?_⟩
  rw [dispatchSuccess_generationResult]
  cases resp.scene_changes <;> cases resp.dialogue <;>
    simp [narrationPart, dialoguePart]

/-- Claim C2: a failed remote call leaves the already-appended PlayerAction
entry intact (no rollback), appends exactly one error-styled entry, and
leaves the NPC catalog, party membership and rendered cast untouched. -/
theorem claim2_dispatch_failure_state (st : AppState)
    (npcName promptText errMsg : String) :
    (dispatchFailure st npcName promptText errMsg).generationResult
      = st.generationResult
          ++ [Entry.playerAction npcName promptText,
              Entry.errorLine ("Error generating scene: " ++ errMsg)]
  ∧ (dispatchFailure st npcName promptText errMsg).npcsData = st.npcsData
  ∧ (dispatchFailure st npcName promptText errMsg).partyNpcIds = st.partyNpcIds
  ∧ (dispatchFailure st npcName promptText errMsg).npcCards = st.npcCards
  ∧ (dispatchFailure st npcName promptText errMsg).npcSelectOptions
      = st.npcSelectOptions := by
  simp [dispatchFailure, preCallPhase]

/-- Claim C5: cast resolution is idempotent and deterministic — re-running
`updateCurrentNpcs` on the state it just produced (same catalog, location
and room selection) changes nothing: the rebuilt cast, option list and
cards are element-for-element identical. -/
theorem claim5_updateCurrentNpcs_idempotent (locationsData : List Location)
    (locationName roomName : String) (st : AppState) :
    updateCurrentNpcs locationsData locationName roomName
        (updateCurrentNpcs locationsData locationName roomName st)
      = updateCurrentNpcs locationsData locationName roomName st := by
  cases h1 : locationsData.find? (fun loc => loc.name = locationName) with
  | none =>
    rw [updateCurrentNpcs_none_loc locationsData locationName roomName st h1,
        updateCurrentNpcs_none_loc locationsData locationName roomName st h1]
  | some location =>
    cases h2 : location.rooms.find? (fun r => r.name = roomName) with
    | none =>
      rw [updateCurrentNpcs_none_room locationsData locationName roomName st location h1 h2,
          updateCurrentNpcs_none_room locationsData locationName roomName st location h1 h2]
    | some room =>
      rw [updateCurrentNpcs_found locationsData locationName roomName st location room h1 h2,
          updateCurrentNpcs_found locationsData locationName roomName _ location room h1 h2]

/-- The duplicate-avoiding fold of `updateCurrentNpcs` preserves
no-duplication of `_id`s in the accumulator. -/
theorem castFold_nodup (l : List Npc) :
    ∀ acc : List Npc, (acc.map Npc._id).Nodup →
      ((l.foldl castStep acc).map Npc._id).Nodup := by
  induction l with
  | nil => intro acc h; exact h
  | cons npc tl ih =>
    intro acc h
    simp only [List.foldl_cons]
    by_cases hany : acc.any (fun p => p._id = npc._id) = true
    · have hstep : castStep acc npc = acc := by rw [castStep, if_pos hany]
      rw [hstep]; exact ih acc h
    · have hstep : castStep acc npc = acc ++ [npc] := by rw [castStep, if_neg hany]
      rw [hstep]
      apply ih
      rw [List.map_append]
      refine List.Nodup.append h (List.nodup_singleton _) ?_
      intro x hx hy
      simp only [List.map_cons, List.map_nil, List.mem_singleton] at hy
      subst hy
      obtain ⟨p, hp, hpe⟩ := List.mem_map.mp hx
      exact hany (List.any_eq_true.mpr ⟨p, hp, by simp [hpe]⟩)

/-- Claim C3: for every room NPC-name set and party id set, the resolved
scene cast contains each NPC identity (`_id`) at most once, provided the
catalog itself has pairwise distinct ids — even when an NPC is both a
party member and room-native. -/
theorem claim3_resolveCast_nodup (npcsData : List Npc)
    (roomNpcNames partyNpcIds : List String)
    (h : (npcsData.map Npc._id).Nodup) :
    ((resolveCast npcsData roomNpcNames partyNpcIds).map Npc._id).Nodup := by
  unfold resolveCast
  apply castFold_nodup
  exact List.Nodup.sublist ((List.filter_sublist npcsData).map Npc._id) h

/-- Witness for C3 at a concrete input where Gorim is simultaneously a
party member and native to the room. -/
theorem claim3_witness :
    ([gorim, brava].map Npc._id).Nodup
  ∧ ((resolveCast [gorim, brava] ["Gorim"] ["id1"]).map Npc._id).Nodup :=
  ⟨by decide, claim3_resolveCast_nodup [gorim, brava] ["Gorim"] ["id1"] (by decide)⟩

/-- The duplicate-avoiding fold keeps the party block as an unchanged
head of the accumulator and only ever appends non-party NPCs, as long as
every party NPC it may encounter is already represented in the
accumulator. -/
theorem castFold_party_block (partyNpcIds : List String) :
    ∀ (l B r0 : List Npc),
      (∀ n ∈ l, n._id ∈ partyNpcIds → ∃ p ∈ B ++ r0, p._id = n._id) →
      (∀ n ∈ r0, n._id ∉ partyNpcIds) →
      ∃ rest, l.foldl castStep (B ++ r0) = B ++ rest
        ∧ ∀ n ∈ rest, n._id ∉ partyNpcIds := by
  intro l
  induction l with
  | nil => intro B r0 _ h2; exact ⟨r0, rfl, h2⟩
  | cons npc tl ih =>
    intro B r0 h1 h2
    simp only [List.foldl_cons]
    by_cases hany : (B ++ r0).any (fun p => p._id = npc._id) = true
    · have hstep : castStep (B ++ r0) npc = B ++ r0 := by rw [castStep, if_pos hany]
      rw [hstep]
      exact ih B r0 (fun n hn => h1 n (List.mem_cons_of_mem _ hn)) h2
    · have hstep : castStep (B ++ r0) npc = (B ++ r0) ++ [npc] := by
        rw [castStep, if_neg hany]
      have hnp : npc._id ∉ partyNpcIds := by
        intro hmem
        obtain ⟨p, hp, hpe⟩ := h1 npc (List.mem_cons_self _ _) hmem
        exact hany (List.any_eq_true.mpr ⟨p, hp, by simp [hpe]⟩)
      rw [hstep, List.append_assoc]
      apply ih B (r0 ++ [npc])
      · intro n hn hnparty
        obtain ⟨p, hp, hpe⟩ := h1 n (List.mem_cons_of_mem _ hn) hnparty
        refine ⟨p, ?_, hpe⟩
        rcases List.mem_append.mp hp with h | h
        · exact List.mem_append.mpr (Or.inl h)
        · exact List.mem_append.mpr (Or.inr (List.mem_append.mpr (Or.inl h)))
      · intro n hn
        rcases List.mem_append.mp hn with h | h
        · exact h2 n h
        · rw [List.mem_singleton] at h; subst h; exact hnp

/-- Claim C4: in the resolved cast, the party members (exactly the party
filter of the catalog, in catalog order) form a head block, and everything
after them is a non-party (room-native) NPC — so every party member
precedes every room-native non-party NPC. -/
theorem claim4_party_precede (npcsData : List Npc)
    (roomNpcNames partyNpcIds : List String) :
    ∃ rest, resolveCast npcsData roomNpcNames partyNpcIds
        = npcsData.filter (fun n => n._id ∈ partyNpcIds) ++ rest
      ∧ ∀ n ∈ rest, n._id ∉ partyNpcIds := by
  unfold resolveCast
  have hmain := castFold_party_block partyNpcIds
    (npcsData.filter (fun n => n.name ∈ roomNpcNames))
    (npcsData.filter (fun n => n._id ∈ partyNpcIds)) []
    (by
      intro n hn hmem
      refine ⟨n, ?_, rfl⟩
      rw [List.append_nil]
      exact List.mem_filter.mpr ⟨List.mem_of_mem_filter hn, by simpa using hmem⟩)
    (by intro n hn; simp at hn)
  rw [List.append_nil] at hmain
  exact hmain

/-- Counterexample for C6: with catalog `[gorim, brava]`, a non-empty
prompt and the single selected target name "Zed" — which resolves to no
catalog NPC, so there are no resolvable targets — the click is NOT
rejected: the action is dispatched, one remote call is issued and a
PlayerAction transcript entry is appended. -/
theorem claim6_counterexample :
    st0.npcsData.filter (fun n => n.name = "Zed") = []
  ∧ (generateBtnClick "hi" ["Zed"] st0).1 = ClickResult.dispatched
  ∧ (generateBtnClick "hi" ["Zed"] st0).2.2 = 1
  ∧ (generateBtnClick "hi" ["Zed"] st0).2.1.generationResult
      = [Entry.playerAction "Zed" "hi"] := by
  refine ⟨rfl, ?_, ?_, ?_⟩ <;> decide

/-- Claim C6 (amended): dispatching from the free-text prompt is rejected
exactly when the prompt is empty or the selected-target list is empty;
the rejection happens before any state change — zero transcript entries
appended, no remote call issued.  (Resolvability of non-empty target
names is not checked.) -/
theorem claim6_amended_empty_rejected (userPromptValue : String)
    (selectedNpcNames : List String) (st : AppState)
    (h : userPromptValue = "" ∨ selectedNpcNames = []) :
    generateBtnClick userPromptValue selectedNpcNames st
      = (ClickResult.rejected, st, 0) := by
  unfold generateBtnClick
  rw [if_pos h]

/-- Witness for the amended C6 at an empty prompt. -/
theorem claim6_amended_witness :
    ("" = "" ∨ (["Gorim"] : List String) = [])
  ∧ generateBtnClick "" ["Gorim"] st0 = (ClickResult.rejected, st0, 0) :=
  ⟨Or.inl rfl, claim6_amended_empty_rejected "" ["Gorim"] st0 (Or.inl rfl)⟩

/-- A sample response carrying scene-narration text with surrounding
whitespace. -/
def respNarr : GenResponse :=
  { scene_changes := some " hello \n", dialogue := none,
    new_dialogue_options := none }

/-- Counterexample for C7: a successful response whose scene text is
" hello \n" produces a SceneNarration entry holding the text untrimmed:
the stored text still starts with a space and ends with a newline, both
whitespace — so it is not the leading/trailing-whitespace-trimmed text
the claim requires. -/
theorem claim7_counterexample :
    (dispatchSuccess [] "" "" st0 "Gorim" "hi" respNarr).1.generationResult
      = [Entry.playerAction "Gorim" "hi", Entry.sceneNarration " hello \n"]
  ∧ " hello \n".data.head? = some ' '
  ∧ " hello \n".data.getLast? = some '\n'
  ∧ (' ' : Char).isWhitespace = true
  ∧ ('\n' : Char).isWhitespace = true := by
  refine ⟨by decide, by decide, by decide, by decide, by decide⟩

/-- Claim C7 (amended): when a successful response carries (non-empty)
scene-narration text, the appended SceneNarration entry holds that text
verbatim — no whitespace trimming is applied. -/
theorem claim7_amended_verbatim (locationsData : List Location)
    (locationName roomName : String) (st : AppState)
    (npcName promptText s : String) (resp : GenResponse)
    (h1 : resp.scene_changes = some s) (h2 : s ≠ "") :
    (dispatchSuccess locationsData locationName roomName st npcName promptText resp).1.generationResult
      = st.generationResult ++ [Entry.playerAction npcName promptText]
          ++ [Entry.sceneNarration s] ++ dialoguePart resp.dialogue := by
  rw [dispatchSuccess_generationResult, h1]
  simp [narrationPart, h2]

/-- Witness for the amended C7 at the sample whitespace-padded response. -/
theorem claim7_amended_witness :
    (respNarr.scene_changes = some " hello \n" ∧ " hello \n" ≠ "")
  ∧ (dispatchSuccess [] "" "" st0 "Gorim" "hi" respNarr).1.generationResult
      = st0.generationResult ++ [Entry.playerAction "Gorim" "hi"]
          ++ [Entry.sceneNarration " hello \n"] ++ dialoguePart respNarr.dialogue :=
  ⟨⟨rfl, by decide⟩,
   claim7_amended_verbatim [] "" "" st0 "Gorim" "hi" " hello \n" respNarr rfl (by decide)⟩

/-- Counterexample for C8: clicking the "Halt!" dialogue-option button on
Gorim's card issues one remote `/generate` call (not zero) and
synchronously appends a PlayerAction entry — not an NpcLine taken from a
canned-conversations mapping (no such mapping exists in the code). -/
theorem claim8_counterexample :
    (actionButtonClick "dialogue" "Gorim" "Halt!" st0).2 = 1
  ∧ (actionButtonClick "dialogue" "Gorim" "Halt!" st0).1.generationResult
      = [Entry.playerAction "Gorim" "Halt!"] := by
  exact ⟨rfl, by decide⟩

/-- Claim C8 (amended): selecting a dialogue-option button always runs
`handleAction`: its synchronous effect is exactly one remote generation
call and exactly one appended PlayerAction entry; NPC lines arrive only
with the remote response, and catalog and party state are untouched
synchronously. -/
theorem claim8_amended_remote (buttonType npcName promptText : String)
    (st : AppState) :
    (actionButtonClick buttonType npcName promptText st).2 = 1
  ∧ (actionButtonClick buttonType npcName promptText st).1.generationResult
      = st.generationResult ++ [Entry.playerAction npcName promptText]
  ∧ (actionButtonClick buttonType npcName promptText st).1.npcsData = st.npcsData
  ∧ (actionButtonClick buttonType npcName promptText st).1.partyNpcIds
      = st.partyNpcIds :=
  ⟨rfl, rfl, rfl, rfl⟩

/-- Counterexample for C9: on the first cast resolution of a room visit
Gorim enters the active cast, yet the transcript stays empty — no
introduction line is emitted at all, so "shown exactly once per room
visit" fails. -/
theorem claim9_counterexample :
    (updateCurrentNpcs [loc1] "Keep" "Hall" st0).npcCards = [gorim]
  ∧ (updateCurrentNpcs [loc1] "Keep" "Hall" st0).generationResult = [] := by
  refine ⟨?_, ?_⟩ <;> decide

/-- Claim C9 (amended): cast recomputation never writes the transcript —
introduction lines are shown zero times per (room visit, NPC), however
many times the cast is recomputed; there is no shown-marker because
nothing is ever shown. -/
theorem claim9_amended_no_transcript_writes (locationsData : List Location)
    (locationName roomName : String) (st : AppState) (k : Nat) :
    ((fun s => updateCurrentNpcs locationsData locationName roomName s)^[k] st).generationResult
      = st.generationResult := by
  induction k generalizing st with
  | zero => rfl
  | succ n ih =>
    rw [Function.iterate_succ_apply]
    rw [ih (updateCurrentNpcs locationsData locationName roomName st)]
    exact updateCurrentNpcs_generationResult locationsData locationName roomName st

theorem responsePhase_miss (locationsData : List Location)
    (locationName roomName : String) (resp : GenResponse) (st : AppState)
    (nm : String) (opts : List String)
    (hdelta : resp.new_dialogue_options = some (nm, opts))
    (hmiss : st.npcsData.find? (fun n => n.name = nm) = none) :
    responsePhase locationsData locationName roomName resp st
      = ({ st with generationResult := applyDialogue (applySceneChanges st.generationResult resp.scene_changes) resp.dialogue }, 0) := by
  unfold responsePhase
  simp only [hdelta, hmiss]

/-- Claim C10: a successful response whose dialogue-option delta names an
NPC absent from the catalog is silently ignored — the catalog is not
mutated, no cast re-render is triggered, and the transcript entries
appended for this response are kept. -/
theorem claim10_unknown_delta_ignored (locationsData : List Location)
    (locationName roomName : String) (st : AppState)
    (npcName promptText : String) (resp : GenResponse)
    (nm : String) (opts : List String)
    (hdelta : resp.new_dialogue_options = some (nm, opts))
    (hmiss : st.npcsData.find? (fun n => n.name = nm) = none) :
    (dispatchSuccess locationsData locationName roomName st npcName promptText resp).1.npcsData
      = st.npcsData
  ∧ (dispatchSuccess locationsData locationName roomName st npcName promptText resp).2 = 0
  ∧ (dispatchSuccess locationsData locationName roomName st npcName promptText resp).1.generationResult
      = st.generationResult ++ [Entry.playerAction npcName promptText]
          ++ narrationPart resp.scene_changes ++ dialoguePart resp.dialogue := by
  have hmiss' : (preCallPhase st npcName promptText).npcsData.find?
      (fun n => n.name = nm) = none := hmiss
  unfold dispatchSuccess
  rw [responsePhase_miss locationsData locationName roomName resp
    (preCallPhase st npcName promptText) nm opts hdelta hmiss']
  refine ⟨rfl, rfl, ?_⟩
  simp [preCallPhase, applySceneChanges_eq, applyDialogue_eq]

/-- A sample response whose delta names the unknown NPC "Zed". -/
def respZed : GenResponse :=
  { scene_changes := none, dialogue := some [("Gorim", "Halt!")],
    new_dialogue_options := some ("Zed", ["option A"]) }

/-- Witness for C10 at the sample unknown-NPC delta. -/
theorem claim10_witness :
    (respZed.new_dialogue_options = some ("Zed", ["option A"])
      ∧ st0.npcsData.find? (fun n => n.name = "Zed") = none)
  ∧ (dispatchSuccess [loc1] "Keep" "Hall" st0 "Gorim" "hi" respZed).1.npcsData
      = st0.npcsData
  ∧ (dispatchSuccess [loc1] "Keep" "Hall" st0 "Gorim" "hi" respZed).2 = 0
  ∧ (dispatchSuccess [loc1] "Keep" "Hall" st0 "Gorim" "hi" respZed).1.generationResult
      = st0.generationResult ++ [Entry.playerAction "Gorim" "hi"]
          ++ narrationPart respZed.scene_changes ++ dialoguePart respZed.dialogue :=
  ⟨⟨rfl, by decide⟩,
   claim10_unknown_delta_ignored [loc1] "Keep" "Hall" st0 "Gorim" "hi" respZed
     "Zed" ["option A"] rfl (by decide)⟩
